import Mathlib

/-!
Verification development for the voicememocli recording core (src/main.c).

The C globals and functions are shallowly embedded: the byte buffer is a
list of byte values, the Uint32 cursor is a natural number reduced mod 2^32,
and each C function becomes a Lean function on an explicit state record.
Out-of-bounds memcpy accesses (undefined behavior in C) are modelled by
dropping the out-of-range bytes and are flagged by explicit predicates.
-/

/-- Range of the C Uint32 type used for the buffer cursor and sizes. -/
def U32 : Nat := 4294967296

/-- main.c:42, const int MAX_RECORDING_DEVICES = 5. -/
def MAX_RECORDING_DEVICES : Nat := 5

/-- main.c:44, const int MAX_RECORDING_SECONDS = 5. -/
def MAX_RECORDING_SECONDS : Nat := 5

/-- main.c:46, const int RECORDING_BUFFER_SECONDS = MAX_RECORDING_SECONDS + 1. -/
def RECORDING_BUFFER_SECONDS : Nat := MAX_RECORDING_SECONDS + 1

/-- main.c:49-57, enum RecordingState. -/
inductive RecordingState
  | selectingDevice
  | stopped
  | recording
  | recorded
  | playback
  | error
  deriving DecidableEq, Repr

/-- The mutable globals of main.c that the recording core touches:
recording_buffer (main.c:71), buffer_byte_size (main.c:73),
buffer_byte_position (main.c:75), buffer_byte_max_position (main.c:77),
recording_state (main.c:80), and the paused flag of each SDL audio device
(SDL_PauseAudioDevice at main.c:200, 219, 333, 355, 369). -/
structure AudioState where
  recordingBuffer : List Nat
  bufferByteSize : Nat
  bufferBytePosition : Nat
  bufferByteMaxPosition : Nat
  recordingState : RecordingState
  capturePaused : Bool
  playbackPaused : Bool
  deriving DecidableEq, Repr

/-- memcpy of src into buf starting at offset pos, keeping the allocation
size fixed: bytes that would land at offset buf.length or beyond (an
out-of-bounds write, undefined behavior in C) are dropped.  For an
in-bounds call this is exactly: keep the first pos bytes, write src, keep
the tail from pos + src.length on. -/
def memcpyInto (buf : List Nat) (pos : Nat) (src : List Nat) : List Nat :=
  buf.take pos ++ src.take (buf.length - pos) ++ buf.drop (pos + src.length)

/-- memcpy of len bytes out of buf starting at offset pos: the in-bounds
bytes followed by zeros for the out-of-range part (an out-of-bounds read,
undefined behavior in C, flagged separately by playbackReadOOB). -/
def memcpyFrom (buf : List Nat) (pos len : Nat) : List Nat :=
  (buf.drop pos).take len ++ List.replicate (len - (buf.length - pos)) 0

/-- The memcpy at main.c:173 writes len bytes starting at
buffer_byte_position; it writes past the end of the calloc-ed allocation
exactly when buffer_byte_position + len exceeds buffer_byte_size. -/
def recordingWriteOOB (s : AudioState) (len : Nat) : Prop :=
  s.bufferByteSize < s.bufferBytePosition + len

/-- The memcpy at main.c:182 reads len bytes starting at
buffer_byte_position; it reads past the end of the allocation exactly when
buffer_byte_position + len exceeds buffer_byte_size. -/
def playbackReadOOB (s : AudioState) (len : Nat) : Prop :=
  s.bufferByteSize < s.bufferBytePosition + len

/-- audio_recording_callback (main.c:170-177):
memcpy(&recording_buffer[buffer_byte_position], stream, len);
buffer_byte_position += len.  There is no clamp of len in the source. -/
def audio_recording_callback (s : AudioState) (stream : List Nat) : AudioState :=
  { s with
    recordingBuffer := memcpyInto s.recordingBuffer s.bufferBytePosition stream
    bufferBytePosition := (s.bufferBytePosition + stream.length) % U32 }

/-- audio_playback_callback (main.c:179-186):
memcpy(stream, &recording_buffer[buffer_byte_position], len);
buffer_byte_position += len.  Returns the new state and the bytes written
to the output stream.  There is no clamp of len in the source. -/
def audio_playback_callback (s : AudioState) (len : Nat) : AudioState × List Nat :=
  ({ s with bufferBytePosition := (s.bufferBytePosition + len) % U32 },
   memcpyFrom s.recordingBuffer s.bufferBytePosition len)

/-- The completion condition the source inlines at main.c:194 while
recording_state == RECORDING: buffer_byte_position > buffer_byte_max_position.
The write cursor is the shared global buffer_byte_position. -/
def isRecordingComplete (s : AudioState) : Bool :=
  s.bufferByteMaxPosition < s.bufferBytePosition

/-- The completion condition the source inlines at main.c:213 while
recording_state == PLAYBACK: buffer_byte_position > buffer_byte_max_position.
The read cursor is the same shared global buffer_byte_position. -/
def isPlaybackComplete (s : AudioState) : Bool :=
  s.bufferByteMaxPosition < s.bufferBytePosition

/-- Which SDL audio device an event concerns. -/
inductive DeviceKind
  | capture
  | playback
  deriving DecidableEq, Repr

/-- Observable steps taken by update (main.c:188-229), in source order:
the unlocked read of buffer_byte_position in the completion test,
SDL_LockAudioDevice, SDL_PauseAudioDevice, the recording_state store, and
SDL_UnlockAudioDevice. -/
inductive AudioEvent
  | readPosition (value : Nat)
  | lockDevice (d : DeviceKind)
  | pauseDevice (d : DeviceKind)
  | setStateEvent (st : RecordingState)
  | unlockDevice (d : DeviceKind)
  deriving DecidableEq, Repr

/-- update (main.c:188-229) together with the trace of its observable
steps in source order.  In both the RECORDING and the PLAYBACK branch the
completion test at main.c:194 and main.c:213 reads the position before the
lock is taken; inside the locked region the device is paused and the state
set to RECORDED with no further read of the position. -/
def updateTrace (s : AudioState) : AudioState × List AudioEvent :=
  if s.recordingState = .recording then
    if s.bufferByteMaxPosition < s.bufferBytePosition then
      ({ s with capturePaused := true, recordingState := .recorded },
       [.readPosition s.bufferBytePosition, .lockDevice .capture,
        .pauseDevice .capture, .setStateEvent .recorded, .unlockDevice .capture])
    else (s, [.readPosition s.bufferBytePosition])
  else if s.recordingState = .playback then
    if s.bufferByteMaxPosition < s.bufferBytePosition then
      ({ s with playbackPaused := true, recordingState := .recorded },
       [.readPosition s.bufferBytePosition, .lockDevice .playback,
        .pauseDevice .playback, .setStateEvent .recorded, .unlockDevice .playback])
    else (s, [.readPosition s.bufferBytePosition])
  else (s, [])

/-- update (main.c:188-229), state part only. -/
def update (s : AudioState) : AudioState :=
  (updateTrace s).fst

/-- The received audio spec fields the sizing code reads (main.c:306-309):
freq, channels, and SDL_AUDIO_BITSIZE(format). -/
structure AudioSpecRcv where
  freq : Nat
  channels : Nat
  bitsize : Nat
  deriving DecidableEq, Repr

/-- main.c:306: received_recording_spec.channels * (SDL_AUDIO_BITSIZE(received_recording_spec.format) / 8). -/
def bytes_per_sample (spec : AudioSpecRcv) : Nat :=
  spec.channels * (spec.bitsize / 8)

/-- main.c:309: received_recording_spec.freq * bytes_per_sample. -/
def bytes_per_second (spec : AudioSpecRcv) : Nat :=
  spec.freq * bytes_per_sample spec

/-- The environment a record command runs against: the enumerated device
count left by init, whether the two SDL_OpenAudioDevice calls
(main.c:272 and main.c:294) succeed, and the negotiated capture spec the
hardware returns. -/
structure RecordEnv where
  deviceCount : Nat
  captureOpenOk : Bool
  playbackOpenOk : Bool
  receivedSpec : AudioSpecRcv
  deriving DecidableEq, Repr

/-- Externally visible actions of the record branch of handle_command, in
source order: SDL_OpenAudioDevice for the capture device at the given
index (main.c:272), SDL_OpenAudioDevice for playback (main.c:294), the
calloc of the byte buffer (main.c:318), unpausing the capture device
(main.c:333), and an error report on stderr (main.c:277, 299). -/
inductive Effect
  | openCaptureDevice (index : Int)
  | openPlaybackDevice
  | allocBuffer (size : Nat)
  | startCapture
  | reportError
  deriving DecidableEq, Repr

/-- main.c:343: char key_press = the letter d, a constant; the
RECORDED-state switch below it can therefore never fire. -/
def key_press : Char := 'd'

/-- The switch at main.c:345-376: only in state RECORDED, key_press 1
starts playback and key_press 2 resets the buffer and re-records; with
key_press fixed to the letter d it leaves the state unchanged. -/
def record_post_switch (s : AudioState) : AudioState :=
  if s.recordingState = .recorded then
    if key_press = '1' then
      { s with bufferBytePosition := 0, playbackPaused := false,
               recordingState := .playback }
    else if key_press = '2' then
      { s with bufferBytePosition := 0,
               recordingBuffer := List.replicate s.bufferByteSize 0,
               capturePaused := false, recordingState := .recording }
    else s
  else s

/-- The CMDTYPE_RECORD branch of handle_command (main.c:247-341) followed
by the key_press switch (main.c:343-376).  The only index check is
param.device < available_recording_device_count (main.c:259); inside it,
capture open failure or playback open failure sets recording_state to
ERROR (main.c:278, 300), and on success the buffer is sized from the
received recording spec (main.c:306-318), calloc-ed zero-initialized, the
position reset to 0 (main.c:330) and the capture device unpaused
(main.c:333) with recording_state = RECORDING.  Returns the new globals
and the list of externally visible actions. -/
def handle_record (env : RecordEnv) (device : Int) (s : AudioState) :
    AudioState × List Effect :=
  let core : AudioState × List Effect :=
    if device < (env.deviceCount : Int) then
      if env.captureOpenOk = false then
        ({ s with recordingState := .error },
         [.openCaptureDevice device, .reportError])
      else if env.playbackOpenOk = false then
        ({ s with recordingState := .error },
         [.openCaptureDevice device, .openPlaybackDevice, .reportError])
      else
        let size := RECORDING_BUFFER_SECONDS * bytes_per_second env.receivedSpec
        let maxPos := MAX_RECORDING_SECONDS * bytes_per_second env.receivedSpec
        ({ recordingBuffer := List.replicate size 0
           bufferByteSize := size
           bufferBytePosition := 0
           bufferByteMaxPosition := maxPos
           recordingState := .recording
           capturePaused := false
           playbackPaused := s.playbackPaused },
         [.openCaptureDevice device, .openPlaybackDevice, .allocBuffer size,
          .startCapture])
    else (s, [])
  (record_post_switch core.fst, core.snd)

/-- Exit code of the record branch of main (main.c:482-521): if
handle_command left recording_state not equal to RECORDING, main closes
and returns -1 (main.c:517-521); otherwise it runs the two polling loops
and falls through to return 0 (main.c:535-538).  Termination of the
polling loops is hardware-driven and outside this model. -/
def main_record_exit (env : RecordEnv) (device : Int) (s : AudioState) : Int :=
  if (handle_record env device s).fst.recordingState = .recording then 0 else -1

/-- Result of init (main.c:85-129). -/
inductive InitResult
  | failed
  | ok (count : Nat)
  deriving DecidableEq, Repr

/-- init (main.c:85-129): available_recording_device_count is what
SDL_GetNumAudioDevices reports; if it is below 1 init fails (main.c:90-95),
otherwise the count is capped at MAX_RECORDING_DEVICES (main.c:99-102). -/
def init (platformCount : Int) : InitResult :=
  if platformCount < 1 then .failed
  else .ok (if (MAX_RECORDING_DEVICES : Int) < platformCount then
              MAX_RECORDING_DEVICES
            else platformCount.toNat)

/-- The device indices visible after init: every later loop runs
i from 0 to available_recording_device_count - 1 (main.c:109, 136, 155). -/
def enumerated_device_indices (r : InitResult) : List Nat :=
  match r with
  | .failed => []
  | .ok c => List.range c

/-- The characters the C isspace classifier accepts in the C locale,
which strtol skips before the number (main.c:465). -/
def isSpaceChar (c : Char) : Bool :=
  c = ' ' || c = '\t' || c = '\n' || c = '\x0b' || c = '\x0c' || c = '\r'

/-- Value of a run of decimal digit characters, most significant first. -/
def digitsVal (ds : List Char) : Int :=
  ds.foldl (fun a c => a * 10 + ((c.toNat - 48 : Nat) : Int)) 0

/-- Strip one optional leading sign character. -/
def stripSign (cs : List Char) : List Char :=
  match cs with
  | '-' :: rest => rest
  | '+' :: rest => rest
  | rest => rest

/-- strtol(argv[i+1], NULL, 10) as called at main.c:465: skip leading
whitespace, take one optional sign, read the maximal run of decimal
digits; with no digits the result is 0.  The LONG_MIN/LONG_MAX clamping
of out-of-range inputs is not modelled; no claim touches it. -/
def strtol10 (cs : List Char) : Int :=
  let t := cs.dropWhile isSpaceChar
  let mag := digitsVal ((stripSign t).takeWhile Char.isDigit)
  if t.head? = some '-' then -mag else mag

/-- The argument has no leading digit once whitespace and an optional
sign are stripped, so strtol consumes no digits. -/
def strtolNoDigits (cs : List Char) : Prop :=
  ((stripSign (cs.dropWhile isSpaceChar)).takeWhile Char.isDigit) = []

/-- strncmp(a, b, n) == 0 for C strings modelled as character lists: the
first n characters agree (comparison stops at the terminator, which the
list length encodes). -/
def strncmpEq (a b : List Char) (n : Nat) : Bool :=
  a.take n == b.take n

/-- struct ArgCmdRecord (main.c:18-26): key holds at most 4 characters
(5-byte zeroed array), device is the int parsed from -d|--device. -/
structure ArgCmdRecord where
  key : List Char
  device : Int
  deriving DecidableEq, Repr

/-- The record-argument scan of main (main.c:443-468): key is memset to
zero, then for i = 2, 3, 4 the argument is prefix-compared against
-k or --key and -d or --device; a key match strncpy-s at most 4 characters of
argv[i+1] into key and sets bit 1 of found_bitchecks, a device match
stores strtol(argv[i+1], NULL, 10) and sets bit 2.  The device field is
uninitialized in C until a -d match; it is only read after both bits are
found, so the model starts it at 0. -/
def recordArgStep (argv : List (List Char)) (acc : ArgCmdRecord × Nat)
    (i : Nat) : ArgCmdRecord × Nat :=
  let a := argv.getD i []
  if strncmpEq a ['-', 'k'] 2 || strncmpEq a ['-', '-', 'k', 'e', 'y'] 5 then
    ({ acc.fst with key := (argv.getD (i + 1) []).take 4 }, acc.snd ||| 1)
  else if strncmpEq a ['-', 'd'] 2 ||
      strncmpEq a ['-', '-', 'd', 'e', 'v', 'i', 'c', 'e'] 8 then
    ({ acc.fst with device := strtol10 (argv.getD (i + 1) []) }, acc.snd ||| 2)
  else acc

def parseRecordArgs (argv : List (List Char)) : ArgCmdRecord × Nat :=
  [2, 3, 4].foldl (recordArgStep argv) ({ key := [], device := 0 }, 0)

/-- Outcome of argument validation in the record branch of main. -/
inductive RecordCmdParse
  | rejected
  | proceed (device : Int) (key : List Char)
  deriving DecidableEq, Repr

/-- The record branch of main up to the handle_command call
(main.c:427-479): with argc < 6 the usage error path runs (main.c:430-440),
with (found_bitchecks & 3) != 3 the same error path runs (main.c:471-474),
otherwise handle_command receives the parsed ArgCmdRecord. -/
def main_record_parse (argv : List (List Char)) : RecordCmdParse :=
  if argv.length < 6 then .rejected
  else
    let p := parseRecordArgs argv
    if p.snd &&& 3 ≠ 3 then .rejected
    else .proceed p.fst.device p.fst.key

/-- A whole recording pass: the capture callback fires once per delivered
chunk (main.c:170-177). -/
def appendChunks (s : AudioState) (chunks : List (List Nat)) : AudioState :=
  chunks.foldl audio_recording_callback s

/-- A whole playback pass: the playback callback fires once per requested
length (main.c:179-186); returns the final state and the chunks delivered
to the output stream. -/
def playChunks (s : AudioState) (lens : List Nat) : AudioState × List (List Nat) :=
  match lens with
  | [] => (s, [])
  | l :: ls =>
    let r := audio_playback_callback s l
    let rest := playChunks r.fst ls
    (rest.fst, r.snd :: rest.snd)

/-- main.c:498 (and main.c:352): buffer_byte_position = 0 before starting
playback; nothing else is touched. -/
def reset_position_for_playback (s : AudioState) : AudioState :=
  { s with bufferBytePosition := 0 }

/-- main.c:330: buffer_byte_position = 0 before starting to record. -/
def reset_position_for_recording (s : AudioState) : AudioState :=
  { s with bufferBytePosition := 0 }

/-- The re-record reset (main.c:364-366): buffer_byte_position = 0 and
memset(recording_buffer, 0, buffer_byte_size). -/
def reset_for_rerecord (s : AudioState) : AudioState :=
  { s with bufferBytePosition := 0,
           recordingBuffer := List.replicate s.bufferByteSize 0 }

/-- The globals right after a successful record-command open
(main.c:306-337): a calloc-ed zero buffer of the computed size, position
0, state RECORDING, capture device unpaused. -/
def mkAudioState (cap maxPos : Nat) : AudioState :=
  { recordingBuffer := List.replicate cap 0
    bufferByteSize := cap
    bufferBytePosition := 0
    bufferByteMaxPosition := maxPos
    recordingState := .recording
    capturePaused := false
    playbackPaused := true }

/-- The globals at program start (main.c:71-83): null buffer, zero sizes
and position, state SELECTING_DEVICE, both devices paused. -/
def initialGlobals : AudioState :=
  { recordingBuffer := []
    bufferByteSize := 0
    bufferBytePosition := 0
    bufferByteMaxPosition := 0
    recordingState := .selectingDevice
    capturePaused := true
    playbackPaused := true }

/-- A sample environment: three enumerated devices, both opens succeed,
and the hardware hands back the desired 44100 Hz stereo 32-bit format. -/
def sampleEnv : RecordEnv :=
  { deviceCount := 3, captureOpenOk := true, playbackOpenOk := true,
    receivedSpec := { freq := 44100, channels := 2, bitsize := 32 } }

theorem memcpyInto_length (buf : List Nat) (pos : Nat) (src : List Nat) :
    (memcpyInto buf pos src).length = buf.length := by
  simp only [memcpyInto, List.length_append, List.length_take, List.length_drop]
  omega

theorem memcpyInto_inbounds (buf : List Nat) (pos : Nat) (src : List Nat)
    (h : pos + src.length ≤ buf.length) :
    memcpyInto buf pos src = buf.take pos ++ src ++ buf.drop (pos + src.length) := by
  unfold memcpyInto
  have h2 : src.take (buf.length - pos) = src := List.take_of_length_le (by omega)
  rw [h2]

theorem memcpyFrom_inbounds (buf : List Nat) (pos len : Nat)
    (h : pos + len ≤ buf.length) :
    memcpyFrom buf pos len = (buf.drop pos).take len := by
  unfold memcpyFrom
  have h0 : len - (buf.length - pos) = 0 := by omega
  rw [h0]
  simp

theorem appendChunks_cons (s : AudioState) (c : List Nat) (cs : List (List Nat)) :
    appendChunks s (c :: cs) = appendChunks (audio_recording_callback s c) cs := rfl

theorem appendChunks_frame (chunks : List (List Nat)) (s : AudioState) :
    (appendChunks s chunks).bufferByteMaxPosition = s.bufferByteMaxPosition
  ∧ (appendChunks s chunks).bufferByteSize = s.bufferByteSize
  ∧ (appendChunks s chunks).recordingState = s.recordingState := by
  induction chunks generalizing s with
  | nil => exact ⟨rfl, rfl, rfl⟩
  | cons c cs ih => exact ih (audio_recording_callback s c)

theorem appendChunks_position (chunks : List (List Nat)) (s : AudioState)
    (h : s.bufferBytePosition < U32) :
    (appendChunks s chunks).bufferBytePosition
      = (s.bufferBytePosition + (chunks.map List.length).sum) % U32 := by
  induction chunks generalizing s with
  | nil => simp [appendChunks, Nat.mod_eq_of_lt h]
  | cons c cs ih =>
    rw [appendChunks_cons, ih (audio_recording_callback s c)
      (Nat.mod_lt _ (by norm_num [U32]))]
    show ((s.bufferBytePosition + c.length) % U32 + (cs.map List.length).sum) % U32 = _
    rw [Nat.mod_add_mod]
    simp [Nat.add_assoc]


theorem appendChunks_storage (chunks : List (List Nat)) (s : AudioState)
    (hL : s.recordingBuffer.length < U32)
    (hfit : s.bufferBytePosition + (chunks.map List.length).sum
      ≤ s.recordingBuffer.length) :
    (appendChunks s chunks).recordingBuffer
      = s.recordingBuffer.take s.bufferBytePosition ++ chunks.flatten
        ++ s.recordingBuffer.drop
            (s.bufferBytePosition + (chunks.map List.length).sum) := by
  induction chunks generalizing s with
  | nil =>
    simp [appendChunks]
  | cons c cs ih =>
    have hc : s.bufferBytePosition + c.length ≤ s.recordingBuffer.length := by
      simp [List.sum_cons] at hfit; omega
    have hpos : (s.bufferBytePosition + c.length) % U32
        = s.bufferBytePosition + c.length :=
      Nat.mod_eq_of_lt (by omega)
    have hbuf : (audio_recording_callback s c).recordingBuffer
        = s.recordingBuffer.take s.bufferBytePosition ++ c
          ++ s.recordingBuffer.drop (s.bufferBytePosition + c.length) := by
      simp [audio_recording_callback, memcpyInto_inbounds _ _ _ hc]
    have hLen : (audio_recording_callback s c).recordingBuffer.length
        = s.recordingBuffer.length := memcpyInto_length _ _ _
    have htk : ((s.recordingBuffer.take s.bufferBytePosition ++ c)).length
        = s.bufferBytePosition + c.length := by
      simp [List.length_take]; omega
    have hposeq : (audio_recording_callback s c).bufferBytePosition
        = s.bufferBytePosition + c.length := by
      show (s.bufferBytePosition + c.length) % U32 = _
      exact hpos
    have hfit2 : (audio_recording_callback s c).bufferBytePosition
        + (cs.map List.length).sum
        ≤ (audio_recording_callback s c).recordingBuffer.length := by
      rw [hposeq, hLen]
      simp [List.sum_cons] at hfit
      omega
    have hL2 : (audio_recording_callback s c).recordingBuffer.length < U32 := by
      rw [hLen]; exact hL
    rw [appendChunks_cons, ih (audio_recording_callback s c) hL2 hfit2,
      hposeq, hbuf, List.take_left' htk]
    have hdrop : ((s.recordingBuffer.take s.bufferBytePosition ++ c)
          ++ s.recordingBuffer.drop (s.bufferBytePosition + c.length)).drop
            (s.bufferBytePosition + c.length + (cs.map List.length).sum)
        = s.recordingBuffer.drop
            (s.bufferBytePosition + c.length + (cs.map List.length).sum) :=
      calc ((s.recordingBuffer.take s.bufferBytePosition ++ c)
            ++ s.recordingBuffer.drop (s.bufferBytePosition + c.length)).drop
              (s.bufferBytePosition + c.length + (cs.map List.length).sum)
          = (((s.recordingBuffer.take s.bufferBytePosition ++ c)
              ++ s.recordingBuffer.drop (s.bufferBytePosition + c.length)).drop
                (s.bufferBytePosition + c.length)).drop
              ((cs.map List.length).sum) :=
            (List.drop_drop _ _ _).symm
        _ = (s.recordingBuffer.drop (s.bufferBytePosition + c.length)).drop
              ((cs.map List.length).sum) := by
            rw [List.drop_left' htk]
        _ = s.recordingBuffer.drop
              (s.bufferBytePosition + c.length + (cs.map List.length).sum) :=
            List.drop_drop _ _ _
    rw [hdrop]
    simp [List.append_assoc, Nat.add_assoc]

theorem playChunks_outputs (lens : List Nat) (s : AudioState)
    (hL : s.recordingBuffer.length < U32)
    (hfit : s.bufferBytePosition + lens.sum ≤ s.recordingBuffer.length) :
    ((playChunks s lens).snd).flatten
      = (s.recordingBuffer.drop s.bufferBytePosition).take lens.sum := by
  induction lens generalizing s with
  | nil => simp [playChunks]
  | cons l ls ih =>
    have hl : s.bufferBytePosition + l ≤ s.recordingBuffer.length := by
      have h2 := hfit; simp [List.sum_cons] at h2; omega
    have hpos : (s.bufferBytePosition + l) % U32 = s.bufferBytePosition + l :=
      Nat.mod_eq_of_lt (by omega)
    have hfit2 : (audio_playback_callback s l).fst.bufferBytePosition + ls.sum
        ≤ (audio_playback_callback s l).fst.recordingBuffer.length := by
      show (s.bufferBytePosition + l) % U32 + ls.sum
        ≤ s.recordingBuffer.length
      rw [hpos]
      simp [List.sum_cons] at hfit
      omega
    have hL2 : (audio_playback_callback s l).fst.recordingBuffer.length < U32 := hL
    show memcpyFrom s.recordingBuffer s.bufferBytePosition l
        ++ ((playChunks (audio_playback_callback s l).fst ls).snd).flatten = _
    rw [ih (audio_playback_callback s l).fst hL2 hfit2]
    show memcpyFrom s.recordingBuffer s.bufferBytePosition l
        ++ (s.recordingBuffer.drop ((s.bufferBytePosition + l) % U32)).take ls.sum
      = (s.recordingBuffer.drop s.bufferBytePosition).take (l :: ls).sum
    rw [hpos, memcpyFrom_inbounds _ _ _ hl, List.sum_cons, List.take_add]
    congr 1
    rw [List.drop_drop]

/-- A recording state two bytes short of capacity: an 8-byte allocation
with the write cursor at 6 and the completion threshold at 4. -/
def nearFullState : AudioState :=
  { recordingBuffer := List.replicate 8 0, bufferByteSize := 8,
    bufferBytePosition := 6, bufferByteMaxPosition := 4,
    recordingState := .recording, capturePaused := false,
    playbackPaused := true }

/-- C1: the capture callback performs no clamping.  With capacityBytes = 8
and the write cursor at 6, a 4-byte hardware chunk advances the cursor to
10, strictly beyond capacityBytes, and the memcpy writes past the end of
the allocation, contradicting the claimed clamp to
min(len, capacityBytes - writePosition). -/
theorem recording_callback_unclamped_overrun :
    (audio_recording_callback nearFullState [9, 9, 9, 9]).bufferBytePosition = 10
  ∧ nearFullState.bufferByteSize = 8
  ∧ recordingWriteOOB nearFullState 4 := by
  refine ⟨by decide, rfl, ?_⟩
  unfold recordingWriteOOB
  decide

/-- A playback state two bytes short of capacity: a 4-byte allocation
holding bytes 1 2 3 4, read cursor at 2. -/
def nearEndPlaybackState : AudioState :=
  { recordingBuffer := [1, 2, 3, 4], bufferByteSize := 4,
    bufferBytePosition := 2, bufferByteMaxPosition := 2,
    recordingState := .playback, capturePaused := true,
    playbackPaused := false }

/-- C2: the playback callback performs no clamping.  With capacityBytes = 4
and the read cursor at 2, a request for 10 bytes memcpy-s past the end of
the allocation (an out-of-bounds read) and advances the cursor to 12,
strictly beyond capacityBytes, instead of copying
min(len, capacityBytes - readPosition) = 2 and advancing to 4. -/
theorem playback_callback_unclamped_overrun :
    (audio_playback_callback nearEndPlaybackState 10).fst.bufferBytePosition = 12
  ∧ nearEndPlaybackState.bufferByteSize = 4
  ∧ playbackReadOOB nearEndPlaybackState 10 := by
  refine ⟨by decide, rfl, ?_⟩
  unfold playbackReadOOB
  decide

/-- C3: isRecordingComplete is true exactly when the cursor strictly
exceeds buffer_byte_max_position (maxUsableBytes), likewise
isPlaybackComplete for the read cursor (the same shared global); these
are exactly the conditions under which update pauses the active device
and moves to RECORDED; and over a recording pass begun at position 0 the
completion flag holds exactly when the cumulative appended byte count
exceeds maxUsableBytes. -/
theorem completion_threshold_iff (s : AudioState) (chunks : List (List Nat))
    (hsum : (chunks.map List.length).sum < U32) :
    (isRecordingComplete s = true ↔ s.bufferByteMaxPosition < s.bufferBytePosition)
  ∧ (isPlaybackComplete s = true ↔ s.bufferByteMaxPosition < s.bufferBytePosition)
  ∧ (s.recordingState = .recording →
      (((update s).recordingState = .recorded ∧ (update s).capturePaused = true)
        ↔ isRecordingComplete s = true))
  ∧ (s.recordingState = .playback →
      (((update s).recordingState = .recorded ∧ (update s).playbackPaused = true)
        ↔ isPlaybackComplete s = true))
  ∧ (isRecordingComplete (appendChunks (reset_position_for_recording s) chunks) = true
      ↔ s.bufferByteMaxPosition < (chunks.map List.length).sum) := by
  refine ⟨by simp [isRecordingComplete], by simp [isPlaybackComplete], ?_, ?_, ?_⟩
  · intro h
    by_cases hc : s.bufferByteMaxPosition < s.bufferBytePosition
    · simp [update, updateTrace, h, hc, isRecordingComplete]
    · simp [update, updateTrace, h, hc, isRecordingComplete]
  · intro h
    by_cases hc : s.bufferByteMaxPosition < s.bufferBytePosition
    · simp [update, updateTrace, h, hc, isPlaybackComplete]
    · simp [update, updateTrace, h, hc, isPlaybackComplete]
  · have hlt : (reset_position_for_recording s).bufferBytePosition < U32 := by
      show (0 : Nat) < U32
      norm_num [U32]
    have hp := appendChunks_position chunks (reset_position_for_recording s) hlt
    have hmax := (appendChunks_frame chunks (reset_position_for_recording s)).1
    have h0 : (reset_position_for_recording s).bufferBytePosition = 0 := rfl
    have hmx : (reset_position_for_recording s).bufferByteMaxPosition
        = s.bufferByteMaxPosition := rfl
    rw [h0] at hp
    rw [hmx] at hmax
    simp only [isRecordingComplete, hp, hmax]
    rw [Nat.zero_add, Nat.mod_eq_of_lt hsum]
    simp

theorem completion_threshold_iff_witness :
    isRecordingComplete
        (appendChunks (reset_position_for_recording (mkAudioState 8 4))
          [[1, 2, 3], [4, 5]]) = true
      ↔ (mkAudioState 8 4).bufferByteMaxPosition
          < ([[1, 2, 3], [4, 5]].map List.length).sum :=
  (completion_threshold_iff (mkAudioState 8 4) [[1, 2, 3], [4, 5]]
    (by norm_num [U32])).2.2.2.2

/-- C4: on a successful open, the buffer is sized from the received
capture format exactly as bytesPerSecond = freq x channels x (bits/8),
maxUsableBytes = MAX_RECORDING_SECONDS x bytesPerSecond and
capacityBytes = (MAX_RECORDING_SECONDS + 1) x bytesPerSecond, with
MAX_RECORDING_SECONDS = 5 and one padding second; the storage is
calloc-ed zero-initialized; and for the 44100 Hz stereo 32-bit format
the three quantities are 352800, 1764000 and 2116800. -/
theorem buffer_sizing_formulas (env : RecordEnv) (s : AudioState) (device : Int)
    (hdev : device < (env.deviceCount : Int))
    (hc : env.captureOpenOk = true) (hp : env.playbackOpenOk = true) :
    (handle_record env device s).fst.bufferByteSize
        = (MAX_RECORDING_SECONDS + 1) * bytes_per_second env.receivedSpec
  ∧ (handle_record env device s).fst.bufferByteMaxPosition
        = MAX_RECORDING_SECONDS * bytes_per_second env.receivedSpec
  ∧ (handle_record env device s).fst.recordingBuffer
        = List.replicate
            ((MAX_RECORDING_SECONDS + 1) * bytes_per_second env.receivedSpec) 0
  ∧ bytes_per_second env.receivedSpec
        = env.receivedSpec.freq * env.receivedSpec.channels
            * (env.receivedSpec.bitsize / 8)
  ∧ MAX_RECORDING_SECONDS = 5
  ∧ RECORDING_BUFFER_SECONDS = MAX_RECORDING_SECONDS + 1
  ∧ bytes_per_second { freq := 44100, channels := 2, bitsize := 32 } = 352800
  ∧ MAX_RECORDING_SECONDS
        * bytes_per_second { freq := 44100, channels := 2, bitsize := 32 }
        = 1764000
  ∧ RECORDING_BUFFER_SECONDS
        * bytes_per_second { freq := 44100, channels := 2, bitsize := 32 }
        = 2116800 := by
  refine ⟨?_, ?_, ?_,
    by simp [bytes_per_second, bytes_per_sample, Nat.mul_assoc],
    rfl, rfl,
    by norm_num [bytes_per_second, bytes_per_sample],
    by norm_num [bytes_per_second, bytes_per_sample, MAX_RECORDING_SECONDS],
    by norm_num [bytes_per_second, bytes_per_sample, RECORDING_BUFFER_SECONDS,
      MAX_RECORDING_SECONDS]⟩ <;>
  simp [handle_record, record_post_switch, key_press, hdev, hc, hp,
    RECORDING_BUFFER_SECONDS]

theorem buffer_sizing_formulas_witness :
    (handle_record sampleEnv 0 initialGlobals).fst.bufferByteSize
      = (MAX_RECORDING_SECONDS + 1) * bytes_per_second sampleEnv.receivedSpec :=
  (buffer_sizing_formulas sampleEnv initialGlobals 0 (by norm_num [sampleEnv]) rfl rfl).1

theorem init_characterization (n : Int) :
    init n = if n < 1 then .failed
             else .ok (min n.toNat MAX_RECORDING_DEVICES) := by
  unfold init
  by_cases h : n < 1
  · simp [h]
  · simp only [h, if_false]
    by_cases h5 : (MAX_RECORDING_DEVICES : Int) < n
    · simp only [h5, if_true, InitResult.ok.injEq]
      simp only [MAX_RECORDING_DEVICES] at h5 ⊢
      omega
    · simp only [h5, if_false, InitResult.ok.injEq]
      simp only [MAX_RECORDING_DEVICES] at h5 ⊢
      omega

/-- C5: init fails exactly when the platform reports fewer than one
capture device; otherwise the enumerated count is min(count, 5); any
successfully enumerated count is at most 5 and every enumerated device
index is below 5, so devices at indices 5 and above are invisible. -/
theorem device_enumeration_cap (n : Int) :
    (init n = .failed ↔ n < 1)
  ∧ (1 ≤ n → init n = .ok (min n.toNat MAX_RECORDING_DEVICES))
  ∧ (∀ c : Nat, init n = .ok c → c ≤ MAX_RECORDING_DEVICES)
  ∧ (∀ i ∈ enumerated_device_indices (init n), i < MAX_RECORDING_DEVICES) := by
  refine ⟨?_, ?_, ?_, ?_⟩
  · rw [init_characterization]
    by_cases h : n < 1
    · simp [h]
    · simp [h]
  · intro h1
    rw [init_characterization, if_neg (by omega)]
  · intro c hc
    rw [init_characterization] at hc
    by_cases h : n < 1
    · rw [if_pos h] at hc
      exact absurd hc (by simp)
    · rw [if_neg h] at hc
      simp only [InitResult.ok.injEq] at hc
      simp only [MAX_RECORDING_DEVICES] at hc ⊢
      omega
  · intro i hi
    rw [init_characterization] at hi
    by_cases h : n < 1
    · rw [if_pos h] at hi
      simp [enumerated_device_indices] at hi
    · rw [if_neg h] at hi
      simp only [enumerated_device_indices, List.mem_range] at hi
      simp only [MAX_RECORDING_DEVICES] at hi ⊢
      omega

theorem device_enumeration_cap_witness :
    init 7 = InitResult.ok (min (Int.toNat 7) MAX_RECORDING_DEVICES) :=
  (device_enumeration_cap 7).2.1 (by norm_num)

/-- Three enumerated devices but the capture-device open fails. -/
def failingOpenEnv : RecordEnv :=
  { deviceCount := 3, captureOpenOk := false, playbackOpenOk := true,
    receivedSpec := { freq := 44100, channels := 2, bitsize := 32 } }

/-- C6 counterexample: INDEX = -1 violates 0 <= INDEX < 3, yet the guard
at main.c:259 (param.device < available_recording_device_count) lets it
through: a capture-device open IS attempted for index -1 and, that open
failing, the state leaves SelectingDevice and enters Error.  Moreover for
INDEX = 99 with 3 devices the rejection is entirely silent: the effect
list is empty, so no InvalidDeviceIndex report is ever produced. -/
theorem record_index_lower_bound_unchecked :
    (handle_record failingOpenEnv (-1) initialGlobals).fst.recordingState
        = RecordingState.error
  ∧ (handle_record failingOpenEnv (-1) initialGlobals).snd
        = [Effect.openCaptureDevice (-1), Effect.reportError]
  ∧ (handle_record failingOpenEnv 99 initialGlobals).snd = [] := by
  refine ⟨?_, ?_, ?_⟩ <;> decide

/-- C6 (amended): only the upper bound of the device index is checked.
For INDEX at or above the enumerated device count the record command is a
silent no-op on the core: no effect occurs (no device open, no
allocation, no report of any kind), the state stays SelectingDevice, and
main exits with code -1.  A negative INDEX instead passes the guard and a
capture-device open is attempted for it. -/
theorem record_index_guard_upper_only (env : RecordEnv) (s : AudioState)
    (device : Int) (hs : s.recordingState = .selectingDevice) :
    ((env.deviceCount : Int) ≤ device →
        handle_record env device s = (s, [])
      ∧ main_record_exit env device s = -1)
  ∧ (device < 0 →
        (handle_record env device s).snd.head?
          = some (.openCaptureDevice device)) := by
  constructor
  · intro hge
    have hcond : ¬ device < (env.deviceCount : Int) := by omega
    have h1 : handle_record env device s = (record_post_switch s, []) := by
      simp [handle_record, hcond]
    have h2 : record_post_switch s = s := by
      simp [record_post_switch, hs]
    refine ⟨by rw [h1, h2], ?_⟩
    simp [main_record_exit, h1, h2, hs]
  · intro hneg
    have hcond : device < (env.deviceCount : Int) := by omega
    cases hcap : env.captureOpenOk with
    | false => simp [handle_record, hcond, hcap]
    | true =>
      cases hpb : env.playbackOpenOk with
      | false => simp [handle_record, hcond, hcap, hpb]
      | true => simp [handle_record, hcond, hcap, hpb]

theorem record_index_guard_upper_only_witness :
    handle_record sampleEnv 99 initialGlobals = (initialGlobals, [])
  ∧ main_record_exit sampleEnv 99 initialGlobals = -1 :=
  (record_index_guard_upper_only sampleEnv initialGlobals 99 rfl).1
    (by norm_num [sampleEnv])

/-- C7: round trip.  Record a pass of chunks into a fresh zeroed buffer
of capacity cap (the pass fitting within capacity), reset the position to
0 as main does before the test playback, and play back any schedule of
callback lengths totalling exactly the recorded length: the concatenation
of the bytes delivered to the output stream is exactly the concatenation
of the recorded chunks - no byte skipped, duplicated, or reordered. -/
theorem record_playback_round_trip (cap maxPos : Nat)
    (chunks : List (List Nat)) (lens : List Nat)
    (hcap : cap < U32)
    (hsum : (chunks.map List.length).sum ≤ cap)
    (hlens : lens.sum = (chunks.map List.length).sum) :
    ((playChunks (reset_position_for_playback
        (appendChunks (mkAudioState cap maxPos) chunks)) lens).snd).flatten
      = chunks.flatten := by
  have hlen0 : (mkAudioState cap maxPos).recordingBuffer.length = cap := by
    simp [mkAudioState]
  have hL0 : (mkAudioState cap maxPos).recordingBuffer.length < U32 := by
    rw [hlen0]; exact hcap
  have hfit0 : (mkAudioState cap maxPos).bufferBytePosition
      + (chunks.map List.length).sum
      ≤ (mkAudioState cap maxPos).recordingBuffer.length := by
    show 0 + (chunks.map List.length).sum ≤ _
    rw [hlen0]
    omega
  have h1 := appendChunks_storage chunks (mkAudioState cap maxPos) hL0 hfit0
  have e1 : (mkAudioState cap maxPos).recordingBuffer = List.replicate cap 0 := rfl
  have e2 : (mkAudioState cap maxPos).bufferBytePosition = 0 := rfl
  rw [e1, e2, List.take_zero, List.nil_append, Nat.zero_add] at h1
  have hlen1 : (appendChunks (mkAudioState cap maxPos) chunks).recordingBuffer.length
      = cap := by
    rw [h1]
    simp only [List.length_append, List.length_flatten, List.length_drop,
      List.length_replicate]
    omega
  have hout := playChunks_outputs lens
    (reset_position_for_playback (appendChunks (mkAudioState cap maxPos) chunks))
    (by
      show (appendChunks (mkAudioState cap maxPos) chunks).recordingBuffer.length
        < U32
      rw [hlen1]; exact hcap)
    (by
      show 0 + lens.sum
        ≤ (appendChunks (mkAudioState cap maxPos) chunks).recordingBuffer.length
      rw [hlen1, hlens]
      omega)
  rw [hout]
  show ((appendChunks (mkAudioState cap maxPos) chunks).recordingBuffer.drop 0).take
      lens.sum = chunks.flatten
  rw [List.drop_zero, h1, hlens]
  exact List.take_left' (by rw [List.length_flatten])

theorem record_playback_round_trip_witness :
    ((playChunks (reset_position_for_playback
        (appendChunks (mkAudioState 8 4) [[1, 2], [3]])) [1, 2]).snd).flatten
      = [[1, 2], [3]].flatten :=
  record_playback_round_trip 8 4 [[1, 2], [3]] [1, 2]
    (by norm_num [U32]) (by decide) (by decide)

/-- A four-byte buffer holding bytes 10 11 12 13 with the shared cursor
at 0. -/
def fourByteState : AudioState :=
  { recordingBuffer := [10, 11, 12, 13], bufferByteSize := 4,
    bufferBytePosition := 0, bufferByteMaxPosition := 4,
    recordingState := .recording, capturePaused := false,
    playbackPaused := true }

/-- C8 counterexample: there is no independent read cursor.  Both
callbacks use the single global buffer_byte_position, so one capture
append of two bytes moves the position the playback callback reads from,
from 0 to 2: the next playback read of two bytes returns the pre-existing
bytes 12 13 at offset 2, not the freshly appended bytes 7 8 at offset 0.
The claimed frame condition (appendFromCapture leaves readPosition
unchanged) is false. -/
theorem shared_cursor_append_moves_read_position :
    fourByteState.bufferBytePosition = 0
  ∧ (audio_recording_callback fourByteState [7, 8]).bufferBytePosition = 2
  ∧ (audio_playback_callback
      (audio_recording_callback fourByteState [7, 8]) 2).snd = [12, 13] := by
  refine ⟨rfl, ?_, ?_⟩ <;> decide

/-- C8 (amended): the buffer has a single cursor, buffer_byte_position,
shared by recording and playback.  Each callback advances this same
cursor by its chunk length (mod 2^32); the playback callback leaves the
stored bytes, the sizes and the state unchanged; the capture callback
leaves the sizes and the state unchanged; the position reset before
playback zeroes the shared cursor (thereby also resetting the write
position) while preserving storage, sizes and state; and the re-record
reset zeroes the cursor and clears the storage. -/
theorem shared_cursor_frame_conditions (s : AudioState) (chunk : List Nat)
    (len : Nat) :
    ((audio_recording_callback s chunk).bufferBytePosition
        = (s.bufferBytePosition + chunk.length) % U32
      ∧ (audio_recording_callback s chunk).bufferByteSize = s.bufferByteSize
      ∧ (audio_recording_callback s chunk).bufferByteMaxPosition
          = s.bufferByteMaxPosition
      ∧ (audio_recording_callback s chunk).recordingState = s.recordingState)
  ∧ ((audio_playback_callback s len).fst.bufferBytePosition
        = (s.bufferBytePosition + len) % U32
      ∧ (audio_playback_callback s len).fst.recordingBuffer = s.recordingBuffer
      ∧ (audio_playback_callback s len).fst.bufferByteSize = s.bufferByteSize
      ∧ (audio_playback_callback s len).fst.bufferByteMaxPosition
          = s.bufferByteMaxPosition
      ∧ (audio_playback_callback s len).fst.recordingState = s.recordingState)
  ∧ ((reset_position_for_playback s).bufferBytePosition = 0
      ∧ (reset_position_for_playback s).recordingBuffer = s.recordingBuffer
      ∧ (reset_position_for_playback s).bufferByteSize = s.bufferByteSize
      ∧ (reset_position_for_playback s).recordingState = s.recordingState)
  ∧ ((reset_for_rerecord s).bufferBytePosition = 0
      ∧ (reset_for_rerecord s).recordingBuffer
          = List.replicate s.bufferByteSize 0) :=
  ⟨⟨rfl, rfl, rfl, rfl⟩, ⟨rfl, rfl, rfl, rfl, rfl⟩, ⟨rfl, rfl, rfl, rfl⟩,
   ⟨rfl, rfl⟩⟩

/-- Whether an event is a read of the shared position counter. -/
def isPositionRead (e : AudioEvent) : Bool :=
  match e with
  | .readPosition _ => true
  | _ => false

/-- C9 counterexample: a completing tick does NOT re-check the completion
condition under the lock.  At a concrete completing state the full trace
is: unlocked position read, lock, pause, state store, unlock - and after
the lock event no position read occurs at all; the claimed order
(lock, re-check under the lock, stop, unlock) is false. -/
theorem tick_no_recheck_under_lock :
    (updateTrace nearFullState).snd
        = [AudioEvent.readPosition 6, AudioEvent.lockDevice DeviceKind.capture,
           AudioEvent.pauseDevice DeviceKind.capture,
           AudioEvent.setStateEvent RecordingState.recorded,
           AudioEvent.unlockDevice DeviceKind.capture]
  ∧ (((updateTrace nearFullState).snd.drop 2).all
      (fun e => !(isPositionRead e))) = true := by
  refine ⟨?_, ?_⟩ <;> decide

/-- C9 (amended): in every tick that completes a recording pass the steps
occur in this order: the completion condition is checked once, before
the lock is acquired; then the capture device lock is acquired, the
device is paused, the state is set to Recorded, and the lock is released,
with no re-check of the completion condition under the lock.
Symmetrically for the playback pass. -/
theorem tick_completion_event_order (s : AudioState) :
    (s.recordingState = .recording →
      s.bufferByteMaxPosition < s.bufferBytePosition →
        (updateTrace s).snd
            = [.readPosition s.bufferBytePosition, .lockDevice .capture,
               .pauseDevice .capture, .setStateEvent .recorded,
               .unlockDevice .capture]
          ∧ (((updateTrace s).snd.drop 2).all
              (fun e => !(isPositionRead e))) = true)
  ∧ (s.recordingState = .playback →
      s.bufferByteMaxPosition < s.bufferBytePosition →
        (updateTrace s).snd
            = [.readPosition s.bufferBytePosition, .lockDevice .playback,
               .pauseDevice .playback, .setStateEvent .recorded,
               .unlockDevice .playback]
          ∧ (((updateTrace s).snd.drop 2).all
              (fun e => !(isPositionRead e))) = true) := by
  constructor
  · intro h hc
    have ht : (updateTrace s).snd
        = [.readPosition s.bufferBytePosition, .lockDevice .capture,
           .pauseDevice .capture, .setStateEvent .recorded,
           .unlockDevice .capture] := by
      simp [updateTrace, h, hc]
    exact ⟨ht, by rw [ht]; rfl⟩
  · intro h hc
    have ht : (updateTrace s).snd
        = [.readPosition s.bufferBytePosition, .lockDevice .playback,
           .pauseDevice .playback, .setStateEvent .recorded,
           .unlockDevice .playback] := by
      simp [updateTrace, h, hc]
    exact ⟨ht, by rw [ht]; rfl⟩

theorem tick_completion_event_order_witness :
    (updateTrace nearFullState).snd
        = [AudioEvent.readPosition nearFullState.bufferBytePosition,
           AudioEvent.lockDevice DeviceKind.capture,
           AudioEvent.pauseDevice DeviceKind.capture,
           AudioEvent.setStateEvent RecordingState.recorded,
           AudioEvent.unlockDevice DeviceKind.capture]
      ∧ (((updateTrace nearFullState).snd.drop 2).all
          (fun e => !(isPositionRead e))) = true :=
  (tick_completion_event_order nearFullState).1 rfl (by decide)

theorem strtol10_of_noDigits (cs : List Char) (h : strtolNoDigits cs) :
    strtol10 cs = 0 := by
  unfold strtolNoDigits at h
  simp only [strtol10]
  rw [h]
  simp [digitsVal]

/-- The argv array of the command: voicememo record -k KEY -d VALUE. -/
def recordArgv (k v : List Char) : List (List Char) :=
  [['v', 'o', 'i', 'c', 'e', 'm', 'e', 'm', 'o'],
   ['r', 'e', 'c', 'o', 'r', 'd'],
   ['-', 'k'], k, ['-', 'd'], v]

/-- C10: a non-numeric value after -d is not rejected by argument
parsing: strtol consumes no digits and yields 0, both found bits are
still set, the command proceeds with device index 0 and the truncated
key, and the record path then attempts to open capture device 0, the
first enumerated device. -/
theorem nonnumeric_device_arg_defaults_to_zero
    (k v : List Char) (env : RecordEnv) (s : AudioState)
    (hk1 : strncmpEq k ['-', 'k'] 2 = false)
    (hk2 : strncmpEq k ['-', '-', 'k', 'e', 'y'] 5 = false)
    (hk3 : strncmpEq k ['-', 'd'] 2 = false)
    (hk4 : strncmpEq k ['-', '-', 'd', 'e', 'v', 'i', 'c', 'e'] 8 = false)
    (hv : strtolNoDigits v)
    (henv : 0 < env.deviceCount) :
    strtol10 v = 0
  ∧ main_record_parse (recordArgv k v) = .proceed 0 (k.take 4)
  ∧ (handle_record env 0 s).snd.head? = some (.openCaptureDevice 0) := by
  have h0 := strtol10_of_noDigits v hv
  have hstep2 : recordArgStep (recordArgv k v) ({ key := [], device := 0 }, 0) 2
      = ({ key := k.take 4, device := 0 }, 1) := rfl
  have hstep3 : recordArgStep (recordArgv k v) ({ key := k.take 4, device := 0 }, 1) 3
      = ({ key := k.take 4, device := 0 }, 1) := by
    have ha : (recordArgv k v).getD 3 [] = k := rfl
    unfold recordArgStep
    simp only [ha, hk1, hk2, hk3, hk4, Bool.or_self, Bool.false_eq_true,
      if_false]
  have hstep4 : recordArgStep (recordArgv k v) ({ key := k.take 4, device := 0 }, 1) 4
      = ({ key := k.take 4, device := strtol10 v }, 3) := by
    have ha : (recordArgv k v).getD 4 [] = ['-', 'd'] := rfl
    have hb : (recordArgv k v).getD 5 [] = v := rfl
    have c1 : strncmpEq ['-', 'd'] ['-', 'k'] 2 = false := by decide
    have c2 : strncmpEq ['-', 'd'] ['-', '-', 'k', 'e', 'y'] 5 = false := by decide
    have c3 : strncmpEq ['-', 'd'] ['-', 'd'] 2 = true := by decide
    have e12 : (1 : Nat) ||| 2 = 3 := by decide
    unfold recordArgStep
    simp only [ha, hb, c1, c2, c3, Bool.false_or, Bool.true_or, Bool.or_self,
      Bool.false_eq_true, if_false, if_true, e12]
  have hparse : parseRecordArgs (recordArgv k v)
      = ({ key := k.take 4, device := strtol10 v }, 3) := by
    show recordArgStep (recordArgv k v)
        (recordArgStep (recordArgv k v)
          (recordArgStep (recordArgv k v) ({ key := [], device := 0 }, 0) 2) 3) 4
      = _
    rw [hstep2, hstep3, hstep4]
  refine ⟨h0, ?_, ?_⟩
  · unfold main_record_parse
    rw [hparse]
    have hlen : (recordArgv k v).length = 6 := rfl
    have e33 : (3 &&& 3 : Nat) = 3 := by decide
    rw [hlen]
    simp [e33, h0]
  · have hcond : (0 : Int) < (env.deviceCount : Int) := by exact_mod_cast henv
    cases hcap : env.captureOpenOk with
    | false => simp [handle_record, hcond, hcap]
    | true =>
      cases hpb : env.playbackOpenOk with
      | false => simp [handle_record, hcond, hcap, hpb]
      | true => simp [handle_record, hcond, hcap, hpb]

theorem nonnumeric_device_arg_defaults_to_zero_witness :
    strtol10 ['a', 'b', 'c'] = 0
  ∧ main_record_parse (recordArgv ['A', 'B'] ['a', 'b', 'c'])
      = .proceed 0 (['A', 'B'].take 4)
  ∧ (handle_record sampleEnv 0 initialGlobals).snd.head?
      = some (.openCaptureDevice 0) :=
  nonnumeric_device_arg_defaults_to_zero ['A', 'B'] ['a', 'b', 'c'] sampleEnv
    initialGlobals (by decide) (by decide) (by decide) (by decide)
    (by unfold strtolNoDigits; decide) (by decide)
